import Mathlib

/-!
Shallow embedding of the money-movement core of the Nkuna Banking
repository (models.py, utils.py, user_routes.py, admin_routes.py,
config.py).  Monetary amounts (Float columns in the source) are modelled
as rationals; the wall clock is a natural number of seconds.
-/

namespace NkunaBank

/-- Monetary amounts are modelled as rationals. -/
abbrev Money := ℚ

namespace Config

/-- Undo window, config.py: UNDO_MINUTES = 15. -/
def UNDO_MINUTES : ℕ := 15

/-- Default transfer fee percentage, config.py: TRANSFER_FEE_PERCENT = 1.0. -/
def TRANSFER_FEE_PERCENT : Money := 1

/-- Fixed utility fee, config.py: UTILITY_FEE_FIXED = 5.0. -/
def UTILITY_FEE_FIXED : Money := 5

/-- Minimum transfer fee, config.py: MIN_TRANSFER_FEE = 5.0. -/
def MIN_TRANSFER_FEE : Money := 5

/-- Maximum transfer fee, config.py: MAX_TRANSFER_FEE = 50.0. -/
def MAX_TRANSFER_FEE : Money := 50

end Config

/-- Round a rational to the nearest integer with ties going to the even
integer, the behaviour of the round builtin of the source language. -/
def roundHalfEven (x : ℚ) : ℤ :=
  if x - ⌊x⌋ = 1 / 2 then (if ⌊x⌋ % 2 = 0 then ⌊x⌋ else ⌊x⌋ + 1) else round x

/-- Rounding to two decimal places, the source expression round(fee, 2). -/
def round2 (x : ℚ) : Money := (roundHalfEven (100 * x) : ℚ) / 100

/-- One row of the nkb_admin_fees_config table (models.py, AdminFeeConfig).
The maximum_fee column is nullable. -/
structure AdminFeeConfig where
  fee_name : String
  fee_percentage : Money
  minimum_fee : Money
  maximum_fee : Option Money
  applies_to_transaction_type : String
  is_active : Bool
deriving Repr, DecidableEq

/-- Fee computation, models.py lines 181 to 193 (AdminFeeConfig.calculate_fee).
The source guards each clamp with the truthiness of the bound, so a zero
minimum_fee, and a null or zero maximum_fee, disable that clamp. -/
def AdminFeeConfig.calculate_fee (c : AdminFeeConfig) (amount : Money) : Money :=
  if c.is_active = false then 0
  else
    let fee : Money := c.fee_percentage / 100 * amount
    let fee : Money := if c.minimum_fee ≠ 0 ∧ fee < c.minimum_fee then c.minimum_fee else fee
    let fee : Money :=
      match c.maximum_fee with
      | some m => if m ≠ 0 ∧ m < fee then m else fee
      | none => fee
    round2 fee

/-- The database lookup used by the static fee helpers: first row whose
applies_to_transaction_type matches and whose is_active flag is set. -/
def findActiveFeeConfig (configs : List AdminFeeConfig) (kind : String) :
    Option AdminFeeConfig :=
  configs.find? (fun c => c.applies_to_transaction_type == kind && c.is_active)

/-- Transfer fee lookup, models.py lines 195 to 207
(AdminFeeConfig.get_transfer_fee): uses the active transfer policy row when
one exists, otherwise falls back to the static defaults of config.py. -/
def get_transfer_fee (configs : List AdminFeeConfig) (amount : Money) : Money :=
  match findActiveFeeConfig configs "transfer" with
  | some c => c.calculate_fee amount
  | none =>
      round2 (max Config.MIN_TRANSFER_FEE
        (min (Config.TRANSFER_FEE_PERCENT / 100 * amount) Config.MAX_TRANSFER_FEE))

/-- Utility fee lookup, models.py lines 209 to 219
(AdminFeeConfig.get_utility_fee). -/
def get_utility_fee (configs : List AdminFeeConfig) : Money :=
  match findActiveFeeConfig configs "utility" with
  | some c => c.calculate_fee 0
  | none => Config.UTILITY_FEE_FIXED

/-- One row of the nkb_users table (models.py, User), restricted to the
columns the money-movement core reads. -/
structure User where
  id : ℕ
  account_number : String
  balance : Money
  is_active : Bool
deriving Repr, DecidableEq

/-- Affordability check, models.py lines 45 to 47 (User.can_afford). -/
def User.can_afford (u : User) (amount : Money) (include_fee : Bool) (fee : Money) : Bool :=
  decide ((if include_fee then amount + fee else amount) ≤ u.balance)

/-- One row of the nkb_transactions table (models.py, Transaction),
restricted to the columns the core reads.  The deadline column holds a
clock reading in seconds. -/
structure Transaction where
  id : ℕ
  user_id : ℕ
  transaction_type : String
  amount : Money
  reference : String
  is_sender : Bool
  status : String
  admin_fee : Money
  can_be_undone_until : Option ℕ
  original_transaction_id : Option ℕ
deriving Repr, DecidableEq

/-- Undo eligibility, models.py lines 74 to 79 (Transaction.can_be_undone):
a deadline must exist, the entry must be the sender side, the clock must be
strictly before the deadline and the status still completed. -/
def Transaction.can_be_undone (t : Transaction) (now : ℕ) : Bool :=
  match t.can_be_undone_until with
  | none => false
  | some deadline =>
      if t.is_sender = false then false
      else decide (now < deadline) && (t.status == "completed")

/-- One row of the nkb_financial_goals table (models.py, FinancialGoal). -/
structure FinancialGoal where
  id : ℕ
  user_id : ℕ
  goal_name : String
  target_amount : Money
  current_amount : Money
  is_completed : Bool
deriving Repr, DecidableEq

/-- Goal deposit arithmetic, models.py lines 135 to 139
(FinancialGoal.add_amount): the saved amount is increased, then clamped to
the target, flipping the completion flag, when it reaches the target. -/
def FinancialGoal.add_amount (g : FinancialGoal) (amount : Money) : FinancialGoal :=
  let g1 := { g with current_amount := g.current_amount + amount }
  if g1.target_amount ≤ g1.current_amount then
    { g1 with is_completed := true, current_amount := g1.target_amount }
  else g1

/-- Goal withdrawal arithmetic, models.py lines 141 to 147
(FinancialGoal.withdraw_amount): refused when the amount exceeds the saved
amount, otherwise the saved amount drops and the completion flag is cleared
when the result is below the target. -/
def FinancialGoal.withdraw_amount (g : FinancialGoal) (amount : Money) :
    Bool × FinancialGoal :=
  if amount ≤ g.current_amount then
    let g1 := { g with current_amount := g.current_amount - amount }
    let g2 := if g1.current_amount < g1.target_amount then
      { g1 with is_completed := false } else g1
    (true, g2)
  else (false, g)

/-- The persistent state the core mutates: the users, transactions and
goals tables, plus the next fresh transaction id. -/
structure BankState where
  users : List User
  transactions : List Transaction
  goals : List FinancialGoal
  next_id : ℕ
deriving Repr, DecidableEq

/-- Primary-key lookup User.query.get(user_id). -/
def findUser (s : BankState) (uid : ℕ) : Option User :=
  s.users.find? (fun u => u.id == uid)

/-- The lookup User.query.filter_by(account_number=..., is_active=True).first(). -/
def findUserByAccount (s : BankState) (acct : String) : Option User :=
  s.users.find? (fun u => u.account_number == acct && u.is_active)

/-- Primary-key lookup Transaction.query.get(transaction_id). -/
def findTransaction (s : BankState) (tid : ℕ) : Option Transaction :=
  s.transactions.find? (fun t => t.id == tid)

/-- Primary-key lookup FinancialGoal.query.get(goal_id). -/
def findGoal (s : BankState) (gid : ℕ) : Option FinancialGoal :=
  s.goals.find? (fun g => g.id == gid)

/-- Balance of an account, for stating properties. -/
def getBalance (s : BankState) (uid : ℕ) : Option Money :=
  (findUser s uid).map User.balance

/-- Writing a new balance to the user row with the given id, the effect of
assigning to user.balance on the attached row object. -/
def updateUserBalance (users : List User) (uid : ℕ) (newBal : Money) : List User :=
  users.map (fun u => if u.id == uid then { u with balance := newBal } else u)

/-- Flipping the status of the transaction row with the given id to
reversed, the effect of assigning transaction.status on the row object. -/
def markReversed (txs : List Transaction) (tid : ℕ) : List Transaction :=
  txs.map (fun t => if t.id == tid then { t with status := "reversed" } else t)

/-- Undo deadline written by create_transaction (utils.py line 70),
in seconds. -/
def undoDeadline (now : ℕ) : ℕ := now + 60 * Config.UNDO_MINUTES

/-- The deposit route, user_routes.py lines 45 to 73: credits the balance
and journals a completed deposit entry carrying an undo deadline.  The
Boolean result reports whether the operation committed. -/
def deposit (s : BankState) (now : ℕ) (uid : ℕ) (amount : Money) : Bool × BankState :=
  match findUser s uid with
  | none => (false, s)
  | some user =>
      let tx : Transaction :=
        { id := s.next_id, user_id := uid, transaction_type := "deposit",
          amount := amount, reference := "Deposit", is_sender := true,
          status := "completed", admin_fee := 0,
          can_be_undone_until := some (undoDeadline now),
          original_transaction_id := none }
      (true,
        { s with users := updateUserBalance s.users uid (user.balance + amount),
                 transactions := s.transactions ++ [tx],
                 next_id := s.next_id + 1 })

/-- The transfer route, user_routes.py lines 75 to 148: computes the fee,
checks affordability of amount plus fee, requires an active recipient
distinct from the sender, debits amount plus fee from the sender, credits
amount to the recipient, and journals a sender entry (directionality true,
carrying the fee) and a recipient entry (directionality false). -/
def transfer (s : BankState) (configs : List AdminFeeConfig) (now : ℕ) (uid : ℕ)
    (account_number : String) (amount : Money) (reference : String) :
    Bool × BankState :=
  match findUser s uid with
  | none => (false, s)
  | some sender =>
      let fee := get_transfer_fee configs amount
      let total := amount + fee
      if sender.can_afford total true 0 = false then (false, s)
      else
        match findUserByAccount s account_number with
        | none => (false, s)
        | some recipient =>
            if recipient.id == uid then (false, s)
            else
              let users1 := updateUserBalance s.users uid (sender.balance - total)
              let users2 := updateUserBalance users1 recipient.id (recipient.balance + amount)
              let senderTx : Transaction :=
                { id := s.next_id, user_id := uid, transaction_type := "transfer",
                  amount := amount, reference := reference, is_sender := true,
                  status := "completed", admin_fee := fee,
                  can_be_undone_until := some (undoDeadline now),
                  original_transaction_id := none }
              let recipientTx : Transaction :=
                { id := s.next_id + 1, user_id := recipient.id,
                  transaction_type := "transfer", amount := amount,
                  reference := reference, is_sender := false,
                  status := "completed", admin_fee := 0,
                  can_be_undone_until := some (undoDeadline now),
                  original_transaction_id := none }
              (true,
                { s with users := users2,
                         transactions := s.transactions ++ [senderTx, recipientTx],
                         next_id := s.next_id + 2 })

/-- The utilities route, user_routes.py lines 150 to 197: checks
affordability of amount plus fee, debits amount plus fee, journals a
utility entry carrying the fee. -/
def utilities (s : BankState) (configs : List AdminFeeConfig) (now : ℕ) (uid : ℕ)
    (amount : Money) (reference : String) : Bool × BankState :=
  match findUser s uid with
  | none => (false, s)
  | some user =>
      let fee := get_utility_fee configs
      let total := amount + fee
      if user.can_afford total true 0 = false then (false, s)
      else
        let tx : Transaction :=
          { id := s.next_id, user_id := uid, transaction_type := "utility",
            amount := amount, reference := reference, is_sender := true,
            status := "completed", admin_fee := fee,
            can_be_undone_until := some (undoDeadline now),
            original_transaction_id := none }
        (true,
          { s with users := updateUserBalance s.users uid (user.balance - total),
                   transactions := s.transactions ++ [tx],
                   next_id := s.next_id + 1 })

/-- The goal deposit route, user_routes.py lines 232 to 277: requires
ownership, a positive amount and affordability of the bare amount; debits
the full amount from the balance, adds it to the goal through add_amount,
and journals a goal_deposit entry with no undo deadline. -/
def goal_deposit (s : BankState) (uid : ℕ) (gid : ℕ) (amount : Money) :
    Bool × BankState :=
  match findGoal s gid with
  | none => (false, s)
  | some goal =>
      if (goal.user_id == uid) = false then (false, s)
      else if amount ≤ 0 then (false, s)
      else
        match findUser s uid with
        | none => (false, s)
        | some user =>
            if user.can_afford amount false 0 = false then (false, s)
            else
              let tx : Transaction :=
                { id := s.next_id, user_id := uid,
                  transaction_type := "goal_deposit", amount := amount,
                  reference := goal.goal_name, is_sender := true,
                  status := "completed", admin_fee := 0,
                  can_be_undone_until := none, original_transaction_id := none }
              (true,
                { s with
                    users := updateUserBalance s.users uid (user.balance - amount),
                    goals := s.goals.map (fun g =>
                      if g.id == gid then g.add_amount amount else g),
                    transactions := s.transactions ++ [tx],
                    next_id := s.next_id + 1 })

/-- The goal withdraw route, user_routes.py lines 279 to 324: requires
ownership, a positive amount not exceeding the goal's saved amount; moves
the amount from the goal back to the balance and journals a
goal_withdrawal entry with no undo deadline. -/
def goal_withdraw (s : BankState) (uid : ℕ) (gid : ℕ) (amount : Money) :
    Bool × BankState :=
  match findGoal s gid with
  | none => (false, s)
  | some goal =>
      if (goal.user_id == uid) = false then (false, s)
      else if amount ≤ 0 then (false, s)
      else if goal.current_amount < amount then (false, s)
      else
        match findUser s uid with
        | none => (false, s)
        | some user =>
            let tx : Transaction :=
              { id := s.next_id, user_id := uid,
                transaction_type := "goal_withdrawal", amount := amount,
                reference := goal.goal_name, is_sender := true,
                status := "completed", admin_fee := 0,
                can_be_undone_until := none, original_transaction_id := none }
            (true,
              { s with
                  users := updateUserBalance s.users uid (user.balance + amount),
                  goals := s.goals.map (fun g =>
                    if g.id == gid then (g.withdraw_amount amount).2 else g),
                  transactions := s.transactions ++ [tx],
                  next_id := s.next_id + 1 })

/-- User-initiated undo, utils.py lines 74 to 115 (undo_transaction).
Returns the (success, message) pair of the source together with the
resulting state.  A missing user row would raise in the source before any
commit, so it is modelled as a failure leaving the state unchanged. -/
def undo_transaction (s : BankState) (now : ℕ) (transaction_id : ℕ) (user_id : ℕ) :
    (Bool × String) × BankState :=
  match findTransaction s transaction_id with
  | none => ((false, "Transaction not found"), s)
  | some t =>
      if (t.user_id == user_id) = false then
        ((false, "You do not have permission to undo this transaction"), s)
      else if t.can_be_undone now = false then
        ((false, "This transaction can no longer be undone"), s)
      else if t.status == "reversed" then
        ((false, "This transaction has already been reversed"), s)
      else
        match findUser s user_id with
        | none => ((false, "User row missing"), s)
        | some user =>
            if t.transaction_type == "deposit" && decide (user.balance < t.amount) then
              ((false, "Insufficient balance to reverse deposit"), s)
            else
              let users :=
                if t.transaction_type == "deposit" then
                  updateUserBalance s.users user_id (user.balance - t.amount)
                else if t.transaction_type == "transfer" || t.transaction_type == "utility" then
                  updateUserBalance s.users user_id (user.balance + t.amount)
                else s.users
              let reversal : Transaction :=
                { id := s.next_id, user_id := user_id,
                  transaction_type := "reversal", amount := t.amount,
                  reference := "Reversal of " ++ t.transaction_type,
                  is_sender := true, status := "completed", admin_fee := 0,
                  can_be_undone_until := none,
                  original_transaction_id := some t.id }
              ((true, "Transaction successfully reversed"),
                { s with users := users,
                         transactions := markReversed s.transactions transaction_id ++ [reversal],
                         next_id := s.next_id + 1 })

/-- Administrative force-reverse, admin_routes.py lines 234 to 272
(force_reverse): blocked only by a status already reversed; reverses the
balance delta on the entry's owning account (no affordability check on the
deposit branch), flips the status and journals a reversal entry.  A missing
user row would raise before the commit, modelled as failure. -/
def force_reverse (s : BankState) (transaction_id : ℕ) : Bool × BankState :=
  match findTransaction s transaction_id with
  | none => (false, s)
  | some t =>
      if t.status == "reversed" then (false, s)
      else
        match findUser s t.user_id with
        | none => (false, s)
        | some user =>
            let reversal : Transaction :=
              { id := s.next_id, user_id := t.user_id,
                transaction_type := "reversal", amount := t.amount,
                reference := "Admin reversal of " ++ t.transaction_type,
                is_sender := true, status := "completed", admin_fee := 0,
                can_be_undone_until := none,
                original_transaction_id := some t.id }
            let users :=
              if t.transaction_type == "deposit" then
                updateUserBalance s.users t.user_id (user.balance - t.amount)
              else if t.transaction_type == "transfer" || t.transaction_type == "utility" then
                updateUserBalance s.users t.user_id (user.balance + t.amount)
              else s.users
            (true,
              { s with users := users,
                       transactions := markReversed s.transactions transaction_id ++ [reversal],
                       next_id := s.next_id + 1 })

/-- Non-negativity of every account balance in a state. -/
def allBalancesNonneg (s : BankState) : Prop := ∀ u ∈ s.users, 0 ≤ u.balance

/-- The seeded transfer fee policy row, utils.py (seed_default_fees):
one percent, minimum 5, maximum 50, active. -/
def seedTransferFee : AdminFeeConfig :=
  { fee_name := "Transfer Fee", fee_percentage := 1, minimum_fee := 5,
    maximum_fee := some 50, applies_to_transaction_type := "transfer",
    is_active := true }

/-- The seeded transfer policy with its active flag cleared. -/
def inactiveTransferFee : AdminFeeConfig := { seedTransferFee with is_active := false }

/-- A goal with target 100 and saved amount 80, for the goal scenario. -/
def demoGoal : FinancialGoal :=
  { id := 1, user_id := 1, goal_name := "Holiday", target_amount := 100,
    current_amount := 80, is_completed := false }

/-- Two-account state for the transfer scenario: A (id 1) holds 1000,
B (id 2) holds 0. -/
def stateAB : BankState :=
  { users := [{ id := 1, account_number := "1111111111", balance := 1000, is_active := true },
              { id := 2, account_number := "2222222222", balance := 0, is_active := true }],
    transactions := [], goals := [], next_id := 10 }

/-- The committed state after A transfers 200 to B under the seeded policy:
A holds 795, B holds 200, the sender entry has id 10. -/
def stateABafter : BankState :=
  (transfer stateAB [seedTransferFee] 0 1 "2222222222" 200 "").2

/-- Single account with zero balance and an open goal. -/
def stateZero : BankState :=
  { users := [{ id := 1, account_number := "1111111111", balance := 0, is_active := true }],
    transactions := [],
    goals := [{ id := 1, user_id := 1, goal_name := "Car", target_amount := 500,
                current_amount := 0, is_completed := false }],
    next_id := 1 }

/-- stateZero after a committed deposit of 100; the deposit entry has id 1. -/
def stateDep : BankState := (deposit stateZero 0 1 100).2

/-- stateDep after a committed goal deposit of 100, draining the balance
back to zero. -/
def stateDrained : BankState := (goal_deposit stateDep 1 1 100).2

/-- A completed deposit entry of 100 with undo deadline at second 900. -/
def poorDepositTx : Transaction :=
  { id := 1, user_id := 1, transaction_type := "deposit", amount := 100,
    reference := "Deposit", is_sender := true, status := "completed",
    admin_fee := 0, can_be_undone_until := some 900,
    original_transaction_id := none }

/-- Account holding 50 together with a completed deposit entry of 100 whose
undo deadline (second 900) has not yet passed at second 10. -/
def statePoor : BankState :=
  { users := [{ id := 1, account_number := "1111111111", balance := 50, is_active := true }],
    transactions := [poorDepositTx],
    goals := [], next_id := 2 }

/-- The sender-side journal entry of the 200 transfer in stateLit. -/
def litSenderTx : Transaction :=
  { id := 10, user_id := 1, transaction_type := "transfer", amount := 200,
    reference := "", is_sender := true, status := "completed", admin_fee := 5,
    can_be_undone_until := some 900, original_transaction_id := none }

/-- The recipient-side journal entry of the 200 transfer in stateLit. -/
def litRecipientTx : Transaction :=
  { id := 11, user_id := 2, transaction_type := "transfer", amount := 200,
    reference := "", is_sender := false, status := "completed", admin_fee := 0,
    can_be_undone_until := some 900, original_transaction_id := none }

/-- A committed goal deposit entry, for the frame property of force-reverse. -/
def litGoalTx : Transaction :=
  { id := 12, user_id := 1, transaction_type := "goal_deposit", amount := 30,
    reference := "Holiday", is_sender := true, status := "completed", admin_fee := 0,
    can_be_undone_until := none, original_transaction_id := none }

/-- A literal post-transfer state used to instantiate the general theorems:
A (id 1) holds 795, B (id 2) holds 200, with the two entries of a 200
transfer carrying fee 5, one goal deposit entry, and the goal demoGoal. -/
def stateLit : BankState :=
  { users := [{ id := 1, account_number := "1111111111", balance := 795, is_active := true },
              { id := 2, account_number := "2222222222", balance := 200, is_active := true }],
    transactions := [litSenderTx, litRecipientTx, litGoalTx],
    goals := [demoGoal], next_id := 13 }

/-- Mapping a key-preserving function through a list commutes with find?. -/
lemma find?_map_pres {α : Type} (f : α → α) (p : α → Bool) (l : List α)
    (h : ∀ a, p (f a) = p a) :
    (l.map f).find? p = (l.find? p).map f := by
  have hpf : p ∘ f = p := funext h
  rw [List.find?_map, hpf]

/-- The balance write touches exactly the rows with the written id. -/
lemma updateUserBalance_find? (users : List User) (uid vid : ℕ) (b : Money) :
    (updateUserBalance users uid b).find? (fun u => u.id == vid) =
      (users.find? (fun u => u.id == vid)).map
        (fun u => if u.id == uid then { u with balance := b } else u) := by
  apply find?_map_pres
  intro a
  by_cases h : (a.id == uid) = true
  · simp [h]
  · simp [h]

/-- The status write touches exactly the rows with the written id. -/
lemma markReversed_find? (txs : List Transaction) (tid tid2 : ℕ) :
    (markReversed txs tid).find? (fun t => t.id == tid2) =
      (txs.find? (fun t => t.id == tid2)).map
        (fun t => if t.id == tid then { t with status := "reversed" } else t) := by
  apply find?_map_pres
  intro a
  by_cases h : (a.id == tid) = true
  · simp [h]
  · simp [h]

/-- A balance write of a non-negative value preserves non-negativity. -/
lemma updateUserBalance_nonneg {users : List User} {uid : ℕ} {b : Money}
    (h : ∀ u ∈ users, 0 ≤ u.balance) (hb : 0 ≤ b) :
    ∀ u ∈ updateUserBalance users uid b, 0 ≤ u.balance := by
  intro u hu
  rw [updateUserBalance, List.mem_map] at hu
  obtain ⟨u0, hu0, rfl⟩ := hu
  by_cases hid : (u0.id == uid) = true
  · simpa [hid] using hb
  · simpa [hid] using h u0 hu0

/-- The transaction found by an id lookup carries that id. -/
lemma findTransaction_id {s : BankState} {tid : ℕ} {t : Transaction}
    (ht : findTransaction s tid = some t) : (t.id == tid) = true := by
  have ht2 : s.transactions.find? (fun t2 => t2.id == tid) = some t := ht
  have h3 := List.find?_some ht2
  exact h3

/-- The user found by an id lookup carries that id. -/
lemma findUser_id {s : BankState} {uid : ℕ} {u : User}
    (hu : findUser s uid = some u) : (u.id == uid) = true := by
  have hu2 : s.users.find? (fun u2 => u2.id == uid) = some u := hu
  have h3 := List.find?_some hu2
  exact h3

/-- The user found by an account lookup is a member of the users table. -/
lemma findUser_mem {s : BankState} {uid : ℕ} {u : User}
    (hu : findUser s uid = some u) : u ∈ s.users := by
  have hu2 : s.users.find? (fun u2 => u2.id == uid) = some u := hu
  exact List.mem_of_find?_eq_some hu2

/-- The user found by an account-number lookup is a member of the users table. -/
lemma findUserByAccount_mem {s : BankState} {acct : String} {u : User}
    (hu : findUserByAccount s acct = some u) : u ∈ s.users := by
  have hu2 : s.users.find? (fun u2 => u2.account_number == acct && u2.is_active) = some u := hu
  exact List.mem_of_find?_eq_some hu2

/-- The transaction found by an id lookup is a member of the journal. -/
lemma findTransaction_mem {s : BankState} {tid : ℕ} {t : Transaction}
    (ht : findTransaction s tid = some t) : t ∈ s.transactions := by
  have ht2 : s.transactions.find? (fun t2 => t2.id == tid) = some t := ht
  exact List.mem_of_find?_eq_some ht2

/-- Unfolding of a positive undo-eligibility check. -/
lemma can_be_undone_spec {t : Transaction} {now : ℕ}
    (h : t.can_be_undone now = true) :
    ∃ d, t.can_be_undone_until = some d ∧ t.is_sender = true ∧ now < d ∧
      t.status = "completed" := by
  cases hd : t.can_be_undone_until with
  | none => simp [Transaction.can_be_undone, hd] at h
  | some d =>
      simp only [Transaction.can_be_undone, hd] at h
      by_cases hs : t.is_sender = false
      · rw [if_pos hs] at h; exact absurd h (by simp)
      · rw [if_neg hs] at h
        rw [Bool.and_eq_true] at h
        obtain ⟨h1, h2⟩ := h
        refine ⟨d, rfl, ?_, of_decide_eq_true h1, by simpa using h2⟩
        revert hs; cases t.is_sender <;> simp

/-- The undo-eligibility check fails once the deadline is reached. -/
lemma can_be_undone_false_of_late {t : Transaction} {now d : ℕ}
    (hd : t.can_be_undone_until = some d) (h : d ≤ now) :
    t.can_be_undone now = false := by
  by_cases hs : t.is_sender = false <;>
    simp [Transaction.can_be_undone, hd, hs, Nat.not_lt.mpr h]

/-- The undo-eligibility check fails on the recipient side of a transfer. -/
lemma can_be_undone_false_of_recipient {t : Transaction} {now : ℕ}
    (hs : t.is_sender = false) : t.can_be_undone now = false := by
  cases hd : t.can_be_undone_until <;>
    simp [Transaction.can_be_undone, hd, hs]

/-- C6: for the active policy with percentage 1, minimum 5 and maximum 50,
the computed fee is 5 at amount 100 (clamped up), 50 at amount 10000
(clamped down) and 20 at amount 2000 (unclamped). -/
theorem fee_clamp_values :
    seedTransferFee.calculate_fee 100 = 5 ∧
    seedTransferFee.calculate_fee 10000 = 50 ∧
    seedTransferFee.calculate_fee 2000 = 20 := by
  refine ⟨?_, ?_, ?_⟩ <;>
    norm_num [AdminFeeConfig.calculate_fee, round2, roundHalfEven, round_eq,
      seedTransferFee]

/-- C7 counterexample: with the seeded transfer policy made inactive, the
transfer fee charged for amount 2000 is the static default 20, not zero. -/
theorem inactive_policy_fallback_fee_counterexample :
    inactiveTransferFee.is_active = false ∧
    inactiveTransferFee.applies_to_transaction_type = "transfer" ∧
    get_transfer_fee [inactiveTransferFee] 2000 = 20 ∧ (20 : Money) ≠ 0 := by
  refine ⟨rfl, rfl, ?_, by norm_num⟩
  norm_num [get_transfer_fee, findActiveFeeConfig, round2, roundHalfEven,
    round_eq, inactiveTransferFee, seedTransferFee, Config.MIN_TRANSFER_FEE,
    Config.MAX_TRANSFER_FEE, Config.TRANSFER_FEE_PERCENT, List.find?]

/-- C7 amended: an inactive policy row computes a zero fee, but when no
active transfer policy row exists the transfer fee lookup falls back to the
static default table of config.py, so the charged fee is the clamped
default rather than zero. -/
theorem inactive_policy_fee_behaviour (c : AdminFeeConfig) (amount : Money)
    (configs : List AdminFeeConfig) (hc : c.is_active = false)
    (hall : ∀ c2 ∈ configs,
      c2.applies_to_transaction_type = "transfer" → c2.is_active = false) :
    c.calculate_fee amount = 0 ∧
    get_transfer_fee configs amount =
      round2 (max Config.MIN_TRANSFER_FEE
        (min (Config.TRANSFER_FEE_PERCENT / 100 * amount) Config.MAX_TRANSFER_FEE)) := by
  constructor
  · simp [AdminFeeConfig.calculate_fee, hc]
  · have hnone : findActiveFeeConfig configs "transfer" = none := by
      rw [findActiveFeeConfig, List.find?_eq_none]
      intro c2 hc2
      by_cases ht : c2.applies_to_transaction_type = "transfer"
      · simp [ht, hall c2 hc2 ht]
      · simp [ht]
    rw [get_transfer_fee, hnone]

/-- C7 amended, witness at the inactive seeded policy and amount 2000. -/
theorem inactive_policy_fee_behaviour_witness :
    inactiveTransferFee.calculate_fee 2000 = 0 ∧
    get_transfer_fee [inactiveTransferFee] 2000 =
      round2 (max Config.MIN_TRANSFER_FEE
        (min (Config.TRANSFER_FEE_PERCENT / 100 * 2000) Config.MAX_TRANSFER_FEE)) := by
  have h := inactive_policy_fee_behaviour inactiveTransferFee 2000 [inactiveTransferFee]
    rfl (by intro c2 hc2 _; simp only [List.mem_singleton] at hc2; rw [hc2]; rfl)
  exact h

/-- C8: a goal deposit of 50 into a goal with target 100 and saved amount
80 clamps the saved amount to 100 and flips completion true; a withdrawal
of 30 then drops it to 70 and flips completion back false; and any goal
withdrawal of more than the saved amount is refused and changes nothing. -/
theorem goal_clamp_scenario :
    (demoGoal.add_amount 50).current_amount = 100 ∧
    (demoGoal.add_amount 50).is_completed = true ∧
    ((demoGoal.add_amount 50).withdraw_amount 30).1 = true ∧
    ((demoGoal.add_amount 50).withdraw_amount 30).2.current_amount = 70 ∧
    ((demoGoal.add_amount 50).withdraw_amount 30).2.is_completed = false ∧
    (∀ (g : FinancialGoal) (amount : Money), g.current_amount < amount →
      (g.withdraw_amount amount).1 = false ∧ (g.withdraw_amount amount).2 = g) := by
  refine ⟨?_, ?_, ?_, ?_, ?_, ?_⟩
  · norm_num [FinancialGoal.add_amount, demoGoal]
  · norm_num [FinancialGoal.add_amount, demoGoal]
  · norm_num [FinancialGoal.add_amount, FinancialGoal.withdraw_amount, demoGoal]
  · norm_num [FinancialGoal.add_amount, FinancialGoal.withdraw_amount, demoGoal]
  · norm_num [FinancialGoal.add_amount, FinancialGoal.withdraw_amount, demoGoal]
  · intro g amount h
    rw [FinancialGoal.withdraw_amount, if_neg (not_le.mpr h)]
    exact ⟨rfl, rfl⟩

/-- C8, witness: the over-withdrawal clause at the concrete goal, amount 200. -/
theorem goal_clamp_scenario_witness :
    (demoGoal.withdraw_amount 200).1 = false ∧
    (demoGoal.withdraw_amount 200).2 = demoGoal := by
  exact goal_clamp_scenario.2.2.2.2.2 demoGoal 200 (by norm_num [demoGoal])

/-- C9: force-reversing a committed entry whose kind is not deposit,
transfer or utility flips its status to reversed and appends a reversal
entry referencing it, but leaves the users table, hence every balance,
unchanged. -/
theorem force_reverse_other_kinds_frame (s : BankState) (tid : ℕ)
    (t : Transaction) (u : User)
    (ht : findTransaction s tid = some t)
    (hst : t.status ≠ "reversed")
    (hu : findUser s t.user_id = some u)
    (h1 : t.transaction_type ≠ "deposit")
    (h2 : t.transaction_type ≠ "transfer")
    (h3 : t.transaction_type ≠ "utility") :
    (force_reverse s tid).1 = true ∧
    (force_reverse s tid).2.users = s.users ∧
    (findTransaction (force_reverse s tid).2 tid).map Transaction.status =
      some "reversed" ∧
    ((force_reverse s tid).2.transactions.getLast?).map
      (fun t2 => (t2.transaction_type, t2.original_transaction_id)) =
      some ("reversal", some t.id) := by
  have htr : s.transactions.find? (fun t2 => t2.id == tid) = some t := ht
  have htid : (t.id == tid) = true := findTransaction_id ht
  have hcond : ¬ ((t.status == "reversed") = true) := by simp [hst]
  have n1 : ¬ ((t.transaction_type == "deposit") = true) := by simp [h1]
  have n23 : ¬ ((t.transaction_type == "transfer" || t.transaction_type == "utility") = true) := by
    simp [h2, h3]
  simp only [force_reverse, ht, hu, if_neg hcond, if_neg n1, if_neg n23]
  refine ⟨by trivial, by trivial, ?_, ?_⟩
  · simp only [findTransaction]
    rw [List.find?_append, markReversed_find?, htr, Option.map_some', if_pos htid]
    rfl
  · rw [List.getLast?_concat]
    rfl

/-- C2 counterexample: in the specified scenario (A holds 1000 and
transfers 200 to B under the seeded one-percent policy, fee 5, leaving A
with 795 and B with 200), force-reversing the sender entry sets A to 995,
not 800, and leaves B at 200, not 0. -/
theorem force_reverse_transfer_scenario_counterexample :
    getBalance stateABafter 1 = some 795 ∧
    getBalance stateABafter 2 = some 200 ∧
    (force_reverse stateABafter 10).1 = true ∧
    getBalance (force_reverse stateABafter 10).2 1 = some 995 ∧
    getBalance (force_reverse stateABafter 10).2 2 = some 200 ∧
    (995 : Money) ≠ 800 ∧ (200 : Money) ≠ 0 := by
  have hfee : get_transfer_fee [seedTransferFee] 200 = 5 := by
    norm_num [get_transfer_fee, findActiveFeeConfig, AdminFeeConfig.calculate_fee,
      round2, roundHalfEven, round_eq, seedTransferFee, List.find?]
  have hstate : stateABafter =
      { users := [{ id := 1, account_number := "1111111111", balance := 795,
                    is_active := true },
                  { id := 2, account_number := "2222222222", balance := 200,
                    is_active := true }],
        transactions := [litSenderTx, litRecipientTx],
        goals := [], next_id := 12 } := by
    norm_num +decide [stateABafter, transfer, stateAB, findUser, findUserByAccount,
      updateUserBalance, User.can_afford, hfee, undoDeadline, Config.UNDO_MINUTES,
      List.find?, litSenderTx, litRecipientTx,
      (by decide : ("1111111111" == "2222222222") = false),
      (by decide : ("2222222222" == "2222222222") = true)]
  rw [hstate]
  refine ⟨?_, ?_, ?_, ?_, ?_, by norm_num, by norm_num⟩ <;>
    norm_num +decide [force_reverse, findTransaction, findUser, getBalance,
      updateUserBalance, markReversed, List.find?, litSenderTx, litRecipientTx,
      (by decide : ("completed" == "reversed") = false),
      (by decide : ("transfer" == "deposit") = false),
      (by decide : ("transfer" == "transfer") = true)]

/-- C2 amended: force-reversing the sender entry of a committed transfer
succeeds regardless of the undo deadline, credits the transfer amount back
to the sender (the fee is not refunded), leaves every other account
balance unchanged (in particular the recipient keeps the transferred
amount), flips the original entry's status to reversed, and appends a
reversal entry referencing the original. -/
theorem force_reverse_sender_transfer_effect (s : BankState) (tid : ℕ)
    (t : Transaction) (u : User)
    (ht : findTransaction s tid = some t)
    (htype : t.transaction_type = "transfer")
    (hst : t.status ≠ "reversed")
    (hu : findUser s t.user_id = some u) :
    (force_reverse s tid).1 = true ∧
    getBalance (force_reverse s tid).2 t.user_id = some (u.balance + t.amount) ∧
    (∀ vid, vid ≠ t.user_id →
      getBalance (force_reverse s tid).2 vid = getBalance s vid) ∧
    (findTransaction (force_reverse s tid).2 tid).map Transaction.status =
      some "reversed" ∧
    ((force_reverse s tid).2.transactions.getLast?).map
      (fun t2 => (t2.transaction_type, t2.original_transaction_id)) =
      some ("reversal", some t.id) := by
  have htr : s.transactions.find? (fun t2 => t2.id == tid) = some t := ht
  have hur : s.users.find? (fun u2 => u2.id == t.user_id) = some u := hu
  have htid : (t.id == tid) = true := findTransaction_id ht
  have huid : (u.id == t.user_id) = true := findUser_id hu
  have hcond : ¬ ((t.status == "reversed") = true) := by simp [hst]
  have n1 : ¬ ((t.transaction_type == "deposit") = true) := by simp [htype]
  have p23 : (t.transaction_type == "transfer" || t.transaction_type == "utility") = true := by
    simp [htype]
  simp only [force_reverse, ht, hu, if_neg hcond, if_neg n1, if_pos p23]
  refine ⟨by trivial, ?_, ?_, ?_, ?_⟩
  · simp only [getBalance, findUser]
    rw [updateUserBalance_find?, hur, Option.map_some', if_pos huid]
    rfl
  · intro vid hvid
    simp only [getBalance, findUser]
    rw [updateUserBalance_find?]
    cases hfind : (s.users.find? (fun u2 => u2.id == vid)) with
    | none => rfl
    | some v =>
        have hv := List.find?_some hfind
        have he : v.id = vid := by simpa using hv
        have hvne : ¬ ((v.id == t.user_id) = true) := by simp [he, hvid]
        rw [Option.map_some', if_neg hvne]
  · simp only [findTransaction]
    rw [List.find?_append, markReversed_find?, htr, Option.map_some', if_pos htid]
    rfl
  · rw [List.getLast?_concat]
    rfl

/-- C9, witness: force-reversing the goal deposit entry (id 12) of the
literal state succeeds and leaves the users table unchanged. -/
theorem force_reverse_other_kinds_frame_witness :
    (force_reverse stateLit 12).1 = true ∧
    (force_reverse stateLit 12).2.users = stateLit.users := by
  obtain ⟨h1, h2, h3, h4⟩ := force_reverse_other_kinds_frame stateLit 12 litGoalTx
    { id := 1, account_number := "1111111111", balance := 795, is_active := true }
    rfl (by decide) rfl (by decide) (by decide) (by decide)
  exact ⟨h1, h2⟩

/-- C2 amended, witness: force-reversing the sender entry of the literal
post-transfer state credits A with the transfer amount and leaves B
untouched. -/
theorem force_reverse_sender_transfer_effect_witness :
    (force_reverse stateLit 10).1 = true ∧
    getBalance (force_reverse stateLit 10).2 1 = some (795 + 200) ∧
    getBalance (force_reverse stateLit 10).2 2 = getBalance stateLit 2 := by
  obtain ⟨h1, h2, h3, h4, h5⟩ := force_reverse_sender_transfer_effect stateLit 10 litSenderTx
    { id := 1, account_number := "1111111111", balance := 795, is_active := true }
    rfl rfl (by decide) rfl
  exact ⟨h1, h2, h3 2 (by decide)⟩

/-- C3: a committed transfer debits amount plus fee from the sender,
credits the bare amount to the recipient, and so decreases the sum of the
two balances by exactly the fee. -/
theorem transfer_conservation (s : BankState) (configs : List AdminFeeConfig)
    (now uid : ℕ) (acct ref : String) (amount : Money) (sender recipient : User)
    (hsender : findUser s uid = some sender)
    (hrec : findUserByAccount s acct = some recipient)
    (haff : sender.can_afford (amount + get_transfer_fee configs amount) true 0 = true)
    (hne : recipient.id ≠ uid) :
    (transfer s configs now uid acct amount ref).1 = true ∧
    getBalance (transfer s configs now uid acct amount ref).2 uid =
      some (sender.balance - (amount + get_transfer_fee configs amount)) ∧
    getBalance (transfer s configs now uid acct amount ref).2 recipient.id =
      some (recipient.balance + amount) ∧
    (sender.balance - (amount + get_transfer_fee configs amount)) +
        (recipient.balance + amount) =
      (sender.balance + recipient.balance) - get_transfer_fee configs amount := by
  have hsr : s.users.find? (fun u2 => u2.id == uid) = some sender := hsender
  have hsid : (sender.id == uid) = true := findUser_id hsender
  have hsid2 : sender.id = uid := by simpa using hsid
  have hnaff : ¬ (sender.can_afford (amount + get_transfer_fee configs amount) true 0 = false) := by
    simp [haff]
  have hridne : ¬ ((recipient.id == uid) = true) := by simp [hne]
  simp only [transfer, hsender, hrec, if_neg hnaff, if_neg hridne]
  refine ⟨by trivial, ?_, ?_, by ring⟩
  · simp only [getBalance, findUser]
    rw [updateUserBalance_find?, updateUserBalance_find?, hsr, Option.map_some',
      if_pos hsid, Option.map_some']
    have hsnr : ¬ (({ sender with
        balance := sender.balance - (amount + get_transfer_fee configs amount) : User }.id
          == recipient.id) = true) := by
      simp [hsid2, Ne.symm hne]
    rw [if_neg hsnr]
    rfl
  · simp only [getBalance, findUser]
    rw [updateUserBalance_find?]
    cases hfind : ((updateUserBalance s.users uid
        (sender.balance - (amount + get_transfer_fee configs amount))).find?
          (fun u2 => u2.id == recipient.id)) with
    | none =>
        rw [updateUserBalance_find?] at hfind
        cases hfind2 : (s.users.find? (fun u2 => u2.id == recipient.id)) with
        | none =>
            have hno := List.find?_eq_none.mp hfind2 recipient (findUserByAccount_mem hrec)
            exact absurd (by simp : (recipient.id == recipient.id) = true) hno
        | some v => rw [hfind2] at hfind; simp at hfind
    | some v =>
        have hv := List.find?_some hfind
        have hvid : v.id = recipient.id := by simpa using hv
        rw [Option.map_some', if_pos (by simpa using hvid)]
        rfl

/-- C3, witness: the transfer of 200 from A to B in the literal state,
fee 5 under the seeded policy. -/
theorem transfer_conservation_witness :
    (transfer stateLit [seedTransferFee] 0 1 "2222222222" 200 "").1 = true ∧
    (795 - (200 + get_transfer_fee [seedTransferFee] 200)) + (200 + 200) =
      (795 + 200) - get_transfer_fee [seedTransferFee] 200 := by
  obtain ⟨h1, h2, h3, h4⟩ := transfer_conservation stateLit [seedTransferFee] 0 1
    "2222222222" "" 200
    { id := 1, account_number := "1111111111", balance := 795, is_active := true }
    { id := 2, account_number := "2222222222", balance := 200, is_active := true }
    rfl rfl
    (by norm_num [User.can_afford, get_transfer_fee, findActiveFeeConfig,
      AdminFeeConfig.calculate_fee, round2, roundHalfEven, round_eq,
      seedTransferFee, List.find?])
    (by decide)
  exact ⟨h1, h4⟩

/-- An undo attempt on an entry that fails the eligibility check is
rejected, whatever else holds. -/
lemma undo_fails_of_not_undoable {s : BankState} {now tid uid : ℕ}
    {t : Transaction} (ht : findTransaction s tid = some t)
    (hcb : t.can_be_undone now = false) :
    (undo_transaction s now tid uid).1.1 = false := by
  simp only [undo_transaction, ht]
  by_cases h1 : (t.user_id == uid) = false
  · rw [if_pos h1]
  · rw [if_neg h1, if_pos hcb]

/-- An entry whose status is already reversed can never be undone. -/
lemma undo_fails_of_reversed {s : BankState} {now tid uid : ℕ}
    {t : Transaction} (ht : findTransaction s tid = some t)
    (hst : t.status = "reversed") :
    (undo_transaction s now tid uid).1.1 = false := by
  refine undo_fails_of_not_undoable ht ?_
  cases hd : t.can_be_undone_until with
  | none => simp [Transaction.can_be_undone, hd]
  | some d =>
      by_cases hs : t.is_sender = false <;>
        simp [Transaction.can_be_undone, hd, hs, hst,
          (by decide : ("reversed" == "completed") = false)]

/-- A user undo goes through when the entry is owned by the caller, passes
the eligibility check, and (for a deposit) the balance covers the amount. -/
lemma undo_succeeds {s : BankState} {now tid uid : ℕ} {t : Transaction} {u : User}
    (ht : findTransaction s tid = some t) (howner : t.user_id = uid)
    (hcan : t.can_be_undone now = true) (hu : findUser s uid = some u)
    (hdep : t.transaction_type = "deposit" → t.amount ≤ u.balance) :
    (undo_transaction s now tid uid).1.1 = true := by
  obtain ⟨d, hd, hsend, hnowd, hstat⟩ := can_be_undone_spec hcan
  have g1 : ¬ ((t.user_id == uid) = false) := by simp [howner]
  have g2 : ¬ (t.can_be_undone now = false) := by simp [hcan]
  have g3 : ¬ ((t.status == "reversed") = true) := by rw [hstat]; decide
  have g4 : ¬ ((t.transaction_type == "deposit" && decide (u.balance < t.amount)) = true) := by
    by_cases hdt : t.transaction_type = "deposit"
    · have hle := hdep hdt
      simp [hdt, not_lt.mpr hle]
    · simp [hdt]
  simp only [undo_transaction, ht, if_neg g1, if_neg g2, if_neg g3, hu, if_neg g4]

/-- C4: a successful user undo of a deposit decrements the initiating
account's balance by exactly the entry's amount; of a transfer or utility
payment it increments the balance by exactly the entry's amount, the fee
charged not being refunded, so the pre-transaction balance is restored
modulo the fee; and a second undo of the same entry is rejected at any
later time. -/
theorem undo_restores_balance_modulo_fee (s : BankState) (now tid uid : ℕ)
    (t : Transaction) (u : User)
    (ht : findTransaction s tid = some t) (howner : t.user_id = uid)
    (hcan : t.can_be_undone now = true) (hu : findUser s uid = some u)
    (hdep : t.transaction_type = "deposit" → t.amount ≤ u.balance) :
    (undo_transaction s now tid uid).1.1 = true ∧
    (t.transaction_type = "deposit" →
      getBalance (undo_transaction s now tid uid).2 uid = some (u.balance - t.amount)) ∧
    ((t.transaction_type = "transfer" ∨ t.transaction_type = "utility") →
      getBalance (undo_transaction s now tid uid).2 uid = some (u.balance + t.amount)) ∧
    (∀ now2, (undo_transaction (undo_transaction s now tid uid).2 now2 tid uid).1.1 = false) := by
  obtain ⟨d, hd, hsend, hnowd, hstat⟩ := can_be_undone_spec hcan
  have htr : s.transactions.find? (fun t2 => t2.id == tid) = some t := ht
  have hur : s.users.find? (fun u2 => u2.id == uid) = some u := hu
  have htid : (t.id == tid) = true := findTransaction_id ht
  have huid : (u.id == uid) = true := findUser_id hu
  have g1 : ¬ ((t.user_id == uid) = false) := by simp [howner]
  have g2 : ¬ (t.can_be_undone now = false) := by simp [hcan]
  have g3 : ¬ ((t.status == "reversed") = true) := by rw [hstat]; decide
  have g4 : ¬ ((t.transaction_type == "deposit" && decide (u.balance < t.amount)) = true) := by
    by_cases hdt : t.transaction_type = "deposit"
    · have hle := hdep hdt
      simp [hdt, not_lt.mpr hle]
    · simp [hdt]
  refine ⟨undo_succeeds ht howner hcan hu hdep, ?_, ?_, ?_⟩
  · intro hdt
    have e1 : (t.transaction_type == "deposit") = true := by simp [hdt]
    simp only [undo_transaction, ht, if_neg g1, if_neg g2, if_neg g3, hu, hur, if_neg g4,
      getBalance, findUser, if_pos e1]
    rw [updateUserBalance_find?, hur, Option.map_some', if_pos huid]
    rfl
  · intro hor
    have e1 : ¬ ((t.transaction_type == "deposit") = true) := by
      rcases hor with h | h <;> rw [h] <;> decide
    have e2 : (t.transaction_type == "transfer" || t.transaction_type == "utility") = true := by
      rcases hor with h | h <;> rw [h] <;> decide
    simp only [undo_transaction, ht, if_neg g1, if_neg g2, if_neg g3, hu, hur, if_neg g4,
      getBalance, findUser, if_neg e1, if_pos e2]
    rw [updateUserBalance_find?, hur, Option.map_some', if_pos huid]
    rfl
  · intro now2
    have hft : findTransaction (undo_transaction s now tid uid).2 tid =
        some ({ t with status := "reversed" }) := by
      simp only [undo_transaction, ht, htr, if_neg g1, if_neg g2, if_neg g3, hu, hur,
        if_neg g4, findTransaction, findUser]
      rw [List.find?_append, markReversed_find?, htr, Option.map_some', if_pos htid]
      rfl
    exact undo_fails_of_reversed hft rfl

/-- C4, witness: undoing the sender transfer entry of the literal state
credits back the amount, and a second undo is rejected. -/
theorem undo_restores_balance_modulo_fee_witness :
    (undo_transaction stateLit 10 10 1).1.1 = true ∧
    getBalance (undo_transaction stateLit 10 10 1).2 1 = some (795 + 200) ∧
    (undo_transaction (undo_transaction stateLit 10 10 1).2 10 10 1).1.1 = false := by
  obtain ⟨h1, h2, h3, h4⟩ := undo_restores_balance_modulo_fee stateLit 10 10 1
    litSenderTx
    { id := 1, account_number := "1111111111", balance := 795, is_active := true }
    rfl rfl (by decide) rfl (fun h => absurd h (by decide))
  exact ⟨h1, h3 (Or.inl rfl), h4 10⟩

/-- C5 counterexample: a deposit undo attempted strictly before the
deadline, by the initiating owner, on a still-completed entry, is
nevertheless rejected when the account balance no longer covers the
deposited amount. -/
theorem undo_before_deadline_insufficient_counterexample :
    poorDepositTx.user_id = 1 ∧
    poorDepositTx.can_be_undone_until = some 900 ∧ 10 < 900 ∧
    poorDepositTx.is_sender = true ∧
    poorDepositTx.status = "completed" ∧
    findTransaction statePoor 1 = some poorDepositTx ∧
    (undo_transaction statePoor 10 1 1).1.1 = false := by
  refine ⟨rfl, rfl, by norm_num, rfl, rfl, rfl, ?_⟩
  norm_num +decide [undo_transaction, findTransaction, findUser,
    Transaction.can_be_undone, List.find?, statePoor, poorDepositTx,
    (by decide : ("completed" == "completed") = true),
    (by decide : ("completed" == "reversed") = false),
    (by decide : ("deposit" == "deposit") = true)]

/-- C5 amended: an undo attempted strictly before the deadline by the
initiating owner of a still-completed entry succeeds, provided (for a
deposit) the balance still covers the amount; an undo attempted at or
after the deadline is rejected; and the recipient side of a transfer
(directionality flag false) can never undo it, whatever the clock says. -/
theorem undo_window_behaviour (s : BankState) (now tid uid : ℕ) (t : Transaction)
    (ht : findTransaction s tid = some t) :
    (∀ d u, t.user_id = uid → t.can_be_undone_until = some d → t.is_sender = true →
      now < d → t.status = "completed" → findUser s uid = some u →
      (t.transaction_type = "deposit" → t.amount ≤ u.balance) →
      (undo_transaction s now tid uid).1.1 = true) ∧
    (∀ d, t.can_be_undone_until = some d → d ≤ now →
      (undo_transaction s now tid uid).1.1 = false) ∧
    (t.is_sender = false → (undo_transaction s now tid uid).1.1 = false) := by
  refine ⟨?_, ?_, ?_⟩
  · intro d u howner hd hsend hnow hstat hu hdep
    have hcan : t.can_be_undone now = true := by
      simp [Transaction.can_be_undone, hd, hsend, hstat, hnow,
        (by decide : ("completed" == "completed") = true)]
    exact undo_succeeds ht howner hcan hu hdep
  · intro d hd hle
    exact undo_fails_of_not_undoable ht (can_be_undone_false_of_late hd hle)
  · intro hs
    exact undo_fails_of_not_undoable ht (can_be_undone_false_of_recipient hs)

/-- C5 amended, witness: before the deadline the sender undo succeeds; at a
time past the deadline it fails; the recipient can never undo. -/
theorem undo_window_behaviour_witness :
    (undo_transaction stateLit 10 10 1).1.1 = true ∧
    (undo_transaction stateLit 1000 10 1).1.1 = false ∧
    (undo_transaction stateLit 10 11 2).1.1 = false := by
  obtain ⟨p1, _, _⟩ := undo_window_behaviour stateLit 10 10 1 litSenderTx rfl
  obtain ⟨_, q2, _⟩ := undo_window_behaviour stateLit 1000 10 1 litSenderTx rfl
  obtain ⟨_, _, r3⟩ := undo_window_behaviour stateLit 10 11 2 litRecipientTx rfl
  refine ⟨?_, q2 900 rfl (by norm_num), r3 rfl⟩
  exact p1 900 { id := 1, account_number := "1111111111", balance := 795, is_active := true }
    rfl rfl rfl (by norm_num) rfl rfl (fun h => absurd h (by decide))

/-- The goal deposit arithmetic clamps the saved amount at the target. -/
lemma add_amount_current (g : FinancialGoal) (amount : Money) :
    (g.add_amount amount).current_amount =
      min (g.current_amount + amount) g.target_amount := by
  simp only [FinancialGoal.add_amount]
  split
  · rename_i h
    exact (min_eq_right h).symm
  · rename_i h
    exact (min_eq_left (le_of_not_le h)).symm

/-- The goal deposit arithmetic never changes the goal's id. -/
lemma add_amount_id (g : FinancialGoal) (amount : Money) :
    (g.add_amount amount).id = g.id := by
  simp only [FinancialGoal.add_amount]
  split <;> rfl

/-- A goal write by id touches exactly the rows with the written id. -/
lemma updateGoal_find? (goals : List FinancialGoal) (gid gid2 : ℕ)
    (f : FinancialGoal → FinancialGoal) (hf : ∀ g, (f g).id = g.id) :
    (goals.map (fun g => if g.id == gid then f g else g)).find?
        (fun g => g.id == gid2) =
      (goals.find? (fun g => g.id == gid2)).map
        (fun g => if g.id == gid then f g else g) := by
  apply find?_map_pres
  intro a
  by_cases h : (a.id == gid) = true <;> simp [h, hf]

/-- C10: a committed goal deposit debits the full requested amount from the
account even when the goal's saved amount clamps at its target, so the
combined holding (balance plus saved amount) drops by exactly the clamped
excess, strictly whenever the deposit overshoots the target. -/
theorem goal_deposit_balance_and_sum (s : BankState) (uid gid : ℕ)
    (amount : Money) (g : FinancialGoal) (u : User)
    (hg : findGoal s gid = some g) (howner : g.user_id = uid)
    (hpos : 0 < amount) (hu : findUser s uid = some u)
    (haff : amount ≤ u.balance) :
    (goal_deposit s uid gid amount).1 = true ∧
    getBalance (goal_deposit s uid gid amount).2 uid = some (u.balance - amount) ∧
    (findGoal (goal_deposit s uid gid amount).2 gid).map FinancialGoal.current_amount =
      some (min (g.current_amount + amount) g.target_amount) ∧
    (u.balance - amount) + min (g.current_amount + amount) g.target_amount =
      (u.balance + g.current_amount) -
        max 0 (g.current_amount + amount - g.target_amount) ∧
    (g.target_amount < g.current_amount + amount →
      (u.balance - amount) + min (g.current_amount + amount) g.target_amount <
        u.balance + g.current_amount) := by
  have hgr : s.goals.find? (fun g2 => g2.id == gid) = some g := hg
  have hur : s.users.find? (fun u2 => u2.id == uid) = some u := hu
  have hgid : (g.id == gid) = true := by
    have h3 := List.find?_some hgr
    exact h3
  have huid : (u.id == uid) = true := findUser_id hu
  have g1 : ¬ ((g.user_id == uid) = false) := by simp [howner]
  have g2 : ¬ (amount ≤ 0) := not_le.mpr hpos
  have g3 : ¬ (u.can_afford amount false 0 = false) := by
    simp [User.can_afford, haff]
  simp only [goal_deposit, hg, hu, if_neg g1, if_neg g2, if_neg g3]
  refine ⟨by trivial, ?_, ?_, ?_, ?_⟩
  · simp only [getBalance, findUser]
    rw [updateUserBalance_find?, hur, Option.map_some', if_pos huid]
    rfl
  · simp only [findGoal]
    rw [updateGoal_find? s.goals gid gid (fun g2 => g2.add_amount amount)
      (fun g2 => add_amount_id g2 amount), hgr, Option.map_some', if_pos hgid,
      Option.map_some', add_amount_current]
  · rcases le_total g.target_amount (g.current_amount + amount) with h | h
    · rw [min_eq_right h, max_eq_right (by linarith)]
      ring
    · rw [min_eq_left h, max_eq_left (by linarith)]
      ring
  · intro hover
    rw [min_eq_right (le_of_lt hover)]
    linarith

/-- C10, witness: a goal deposit of 30 into the literal state's goal
(target 100, saved 80) debits 30 from the balance while the goal clamps,
so the combined holding strictly drops. -/
theorem goal_deposit_balance_and_sum_witness :
    (goal_deposit stateLit 1 1 30).1 = true ∧
    getBalance (goal_deposit stateLit 1 1 30).2 1 = some (795 - 30) ∧
    (795 - 30) + min (80 + 30) 100 < 795 + 80 := by
  obtain ⟨h1, h2, h3, h4, h5⟩ := goal_deposit_balance_and_sum stateLit 1 1 30 demoGoal
    { id := 1, account_number := "1111111111", balance := 795, is_active := true }
    rfl rfl (by norm_num) rfl (by norm_num)
  exact ⟨h1, h2, by simpa [demoGoal] using h5 (by norm_num [demoGoal])⟩

/-- A committed deposit of a non-negative amount preserves non-negative
balances. -/
lemma deposit_nonneg {s : BankState} {now uid : ℕ} {amount : Money}
    (hs : allBalancesNonneg s) (ha : 0 ≤ amount) :
    allBalancesNonneg (deposit s now uid amount).2 := by
  cases hU : findUser s uid with
  | none => simp only [deposit, hU]; exact hs
  | some u =>
      simp only [deposit, hU]
      intro v hv
      refine updateUserBalance_nonneg hs ?_ v hv
      have h0 : 0 ≤ u.balance := hs u (findUser_mem hU)
      linarith

/-- A committed transfer of a non-negative amount preserves non-negative
balances: the sender passed the affordability check and the recipient is
credited. -/
lemma transfer_nonneg {s : BankState} {configs : List AdminFeeConfig}
    {now uid : ℕ} {acct ref : String} {amount : Money}
    (hs : allBalancesNonneg s) (ha : 0 ≤ amount) :
    allBalancesNonneg (transfer s configs now uid acct amount ref).2 := by
  cases hU : findUser s uid with
  | none => simp only [transfer, hU]; exact hs
  | some sender =>
      simp only [transfer, hU]
      by_cases haff : sender.can_afford (amount + get_transfer_fee configs amount) true 0 = false
      · rw [if_pos haff]; exact hs
      · rw [if_neg haff]
        cases hR : findUserByAccount s acct with
        | none => simp only [hR]; exact hs
        | some recipient =>
            simp only [hR]
            by_cases hsame : (recipient.id == uid) = true
            · rw [if_pos hsame]; exact hs
            · rw [if_neg hsame]
              intro v hv
              have ht2 : sender.can_afford (amount + get_transfer_fee configs amount) true 0 = true := by
                revert haff
                cases sender.can_afford (amount + get_transfer_fee configs amount) true 0 <;> simp
              have hle : amount + get_transfer_fee configs amount ≤ sender.balance := by
                simpa [User.can_afford] using ht2
              have h1 : 0 ≤ sender.balance - (amount + get_transfer_fee configs amount) := by
                linarith
              have h2 : 0 ≤ recipient.balance + amount := by
                have := hs recipient (findUserByAccount_mem hR)
                linarith
              exact updateUserBalance_nonneg (updateUserBalance_nonneg hs h1) h2 v hv

/-- A committed utility payment preserves non-negative balances. -/
lemma utilities_nonneg {s : BankState} {configs : List AdminFeeConfig}
    {now uid : ℕ} {amount : Money} {ref : String}
    (hs : allBalancesNonneg s) :
    allBalancesNonneg (utilities s configs now uid amount ref).2 := by
  cases hU : findUser s uid with
  | none => simp only [utilities, hU]; exact hs
  | some u =>
      simp only [utilities, hU]
      by_cases haff : u.can_afford (amount + get_utility_fee configs) true 0 = false
      · rw [if_pos haff]; exact hs
      · rw [if_neg haff]
        intro v hv
        have ht2 : u.can_afford (amount + get_utility_fee configs) true 0 = true := by
          revert haff
          cases u.can_afford (amount + get_utility_fee configs) true 0 <;> simp
        have hle : amount + get_utility_fee configs ≤ u.balance := by
          simpa [User.can_afford] using ht2
        exact updateUserBalance_nonneg hs (by linarith) v hv

/-- A committed goal deposit preserves non-negative balances. -/
lemma goal_deposit_nonneg {s : BankState} {uid gid : ℕ} {amount : Money}
    (hs : allBalancesNonneg s) :
    allBalancesNonneg (goal_deposit s uid gid amount).2 := by
  cases hG : findGoal s gid with
  | none => simp only [goal_deposit, hG]; exact hs
  | some g =>
      simp only [goal_deposit, hG]
      by_cases g1 : (g.user_id == uid) = false
      · rw [if_pos g1]; exact hs
      · rw [if_neg g1]
        by_cases g2 : amount ≤ 0
        · rw [if_pos g2]; exact hs
        · rw [if_neg g2]
          cases hU : findUser s uid with
          | none => simp only [hU]; exact hs
          | some u =>
              simp only [hU]
              by_cases g3 : u.can_afford amount false 0 = false
              · rw [if_pos g3]; exact hs
              · rw [if_neg g3]
                intro v hv
                have ht2 : u.can_afford amount false 0 = true := by
                  revert g3
                  cases u.can_afford amount false 0 <;> simp
                have hle : amount ≤ u.balance := by
                  simpa [User.can_afford] using ht2
                exact updateUserBalance_nonneg hs (by linarith) v hv

/-- A committed goal withdrawal preserves non-negative balances: it only
credits the account. -/
lemma goal_withdraw_nonneg {s : BankState} {uid gid : ℕ} {amount : Money}
    (hs : allBalancesNonneg s) :
    allBalancesNonneg (goal_withdraw s uid gid amount).2 := by
  cases hG : findGoal s gid with
  | none => simp only [goal_withdraw, hG]; exact hs
  | some g =>
      simp only [goal_withdraw, hG]
      by_cases g1 : (g.user_id == uid) = false
      · rw [if_pos g1]; exact hs
      · rw [if_neg g1]
        by_cases g2 : amount ≤ 0
        · rw [if_pos g2]; exact hs
        · rw [if_neg g2]
          by_cases g3 : g.current_amount < amount
          · rw [if_pos g3]; exact hs
          · rw [if_neg g3]
            cases hU : findUser s uid with
            | none => simp only [hU]; exact hs
            | some u =>
                simp only [hU]
                intro v hv
                have h0 : 0 ≤ u.balance := hs u (findUser_mem hU)
                have ha : 0 < amount := not_le.mp g2
                exact updateUserBalance_nonneg hs (by linarith) v hv

/-- A committed user undo preserves non-negative balances: the deposit
branch checks the balance, the transfer and utility branches only credit
journalled (non-negative) amounts. -/
lemma undo_nonneg {s : BankState} {now tid uid : ℕ}
    (hs : allBalancesNonneg s)
    (htx : ∀ t2 ∈ s.transactions, 0 ≤ t2.amount) :
    allBalancesNonneg (undo_transaction s now tid uid).2 := by
  cases hT : findTransaction s tid with
  | none => simp only [undo_transaction, hT]; exact hs
  | some t =>
      simp only [undo_transaction, hT]
      by_cases g1 : (t.user_id == uid) = false
      · rw [if_pos g1]; exact hs
      · rw [if_neg g1]
        by_cases g2 : t.can_be_undone now = false
        · rw [if_pos g2]; exact hs
        · rw [if_neg g2]
          by_cases g3 : (t.status == "reversed") = true
          · rw [if_pos g3]; exact hs
          · rw [if_neg g3]
            cases hU : findUser s uid with
            | none => simp only [hU]; exact hs
            | some u =>
                simp only [hU]
                by_cases g4 : (t.transaction_type == "deposit" && decide (u.balance < t.amount)) = true
                · rw [if_pos g4]; exact hs
                · rw [if_neg g4]
                  intro v hv
                  by_cases d1 : (t.transaction_type == "deposit") = true
                  · rw [if_pos d1] at hv
                    have hnl : ¬ (u.balance < t.amount) := by
                      intro hlt
                      exact g4 (by simp [d1, hlt])
                    exact updateUserBalance_nonneg hs (by linarith [not_lt.mp hnl]) v hv
                  · rw [if_neg d1] at hv
                    by_cases d2 : (t.transaction_type == "transfer" || t.transaction_type == "utility") = true
                    · rw [if_pos d2] at hv
                      have h0 : 0 ≤ u.balance := hs u (findUser_mem hU)
                      have hta : 0 ≤ t.amount := htx t (findTransaction_mem hT)
                      exact updateUserBalance_nonneg hs (by linarith) v hv
                    · rw [if_neg d2] at hv
                      exact hs v hv

/-- A force-reverse of an entry whose kind is not deposit preserves
non-negative balances. -/
lemma force_reverse_nonneg {s : BankState} {tid : ℕ} {t : Transaction}
    (hs : allBalancesNonneg s)
    (htx : ∀ t2 ∈ s.transactions, 0 ≤ t2.amount)
    (ht : findTransaction s tid = some t)
    (hnd : t.transaction_type ≠ "deposit") :
    allBalancesNonneg (force_reverse s tid).2 := by
  simp only [force_reverse, ht]
  by_cases g1 : (t.status == "reversed") = true
  · rw [if_pos g1]; exact hs
  · rw [if_neg g1]
    cases hU : findUser s t.user_id with
    | none => simp only [hU]; exact hs
    | some u =>
        simp only [hU]
        intro v hv
        have d1 : ¬ ((t.transaction_type == "deposit") = true) := by simp [hnd]
        rw [if_neg d1] at hv
        by_cases d2 : (t.transaction_type == "transfer" || t.transaction_type == "utility") = true
        · rw [if_pos d2] at hv
          have h0 : 0 ≤ u.balance := hs u (findUser_mem hU)
          have hta : 0 ≤ t.amount := htx t (findTransaction_mem ht)
          exact updateUserBalance_nonneg hs (by linarith) v hv
        · rw [if_neg d2] at hv
          exact hs v hv

/-- C1 amended: starting from non-negative balances and a journal of
non-negative amounts, every committed operation preserves non-negativity
of all balances, with the single exception of an administrative
force-reverse of a deposit entry (whose kind is excluded here): deposit,
transfer, utility payment, goal deposit, goal withdrawal, user undo, and
force-reverse of a non-deposit entry. -/
theorem nonneg_invariant_amended (s : BankState) (configs : List AdminFeeConfig)
    (now uid tid tid2 gid : ℕ) (acct ref : String) (amount : Money)
    (t : Transaction)
    (hs : allBalancesNonneg s) (ha : 0 ≤ amount)
    (htx : ∀ t2 ∈ s.transactions, 0 ≤ t2.amount)
    (ht : findTransaction s tid = some t)
    (hnd : t.transaction_type ≠ "deposit") :
    allBalancesNonneg (deposit s now uid amount).2 ∧
    allBalancesNonneg (transfer s configs now uid acct amount ref).2 ∧
    allBalancesNonneg (utilities s configs now uid amount ref).2 ∧
    allBalancesNonneg (goal_deposit s uid gid amount).2 ∧
    allBalancesNonneg (goal_withdraw s uid gid amount).2 ∧
    allBalancesNonneg (undo_transaction s now tid2 uid).2 ∧
    allBalancesNonneg (force_reverse s tid).2 :=
  ⟨deposit_nonneg hs ha, transfer_nonneg hs ha, utilities_nonneg hs,
   goal_deposit_nonneg hs, goal_withdraw_nonneg hs, undo_nonneg hs htx,
   force_reverse_nonneg hs htx ht hnd⟩

/-- C1 counterexample: a sequence of committed operations drives a balance
negative.  Starting from a zero balance, a committed deposit of 100
followed by a committed goal deposit of 100 leaves the balance at zero;
an administrative force-reverse of the deposit entry then commits and
leaves the balance at minus 100. -/
theorem committed_sequence_negative_balance :
    (deposit stateZero 0 1 100).1 = true ∧
    (goal_deposit (deposit stateZero 0 1 100).2 1 1 100).1 = true ∧
    (force_reverse (goal_deposit (deposit stateZero 0 1 100).2 1 1 100).2 1).1 = true ∧
    getBalance (force_reverse (goal_deposit (deposit stateZero 0 1 100).2 1 1 100).2 1).2 1 =
      some (-100) ∧
    (-100 : Money) < 0 := by
  have e1 : (deposit stateZero 0 1 100).2 =
      { users := [{ id := 1, account_number := "1111111111", balance := 100,
                    is_active := true }],
        transactions := [{ id := 1, user_id := 1, transaction_type := "deposit",
                           amount := 100, reference := "Deposit", is_sender := true,
                           status := "completed", admin_fee := 0,
                           can_be_undone_until := some 900,
                           original_transaction_id := none }],
        goals := [{ id := 1, user_id := 1, goal_name := "Car", target_amount := 500,
                    current_amount := 0, is_completed := false }],
        next_id := 2 } := by
    norm_num +decide [deposit, stateZero, findUser, updateUserBalance,
      undoDeadline, Config.UNDO_MINUTES, List.find?]
  have e2 : (goal_deposit
      ({ users := [{ id := 1, account_number := "1111111111", balance := 100,
                     is_active := true }],
         transactions := [{ id := 1, user_id := 1, transaction_type := "deposit",
                            amount := 100, reference := "Deposit", is_sender := true,
                            status := "completed", admin_fee := 0,
                            can_be_undone_until := some 900,
                            original_transaction_id := none }],
         goals := [{ id := 1, user_id := 1, goal_name := "Car", target_amount := 500,
                     current_amount := 0, is_completed := false }],
         next_id := 2 } : BankState) 1 1 100).2 =
      { users := [{ id := 1, account_number := "1111111111", balance := 0,
                    is_active := true }],
        transactions := [{ id := 1, user_id := 1, transaction_type := "deposit",
                           amount := 100, reference := "Deposit", is_sender := true,
                           status := "completed", admin_fee := 0,
                           can_be_undone_until := some 900,
                           original_transaction_id := none },
                         { id := 2, user_id := 1, transaction_type := "goal_deposit",
                           amount := 100, reference := "Car", is_sender := true,
                           status := "completed", admin_fee := 0,
                           can_be_undone_until := none,
                           original_transaction_id := none }],
        goals := [{ id := 1, user_id := 1, goal_name := "Car", target_amount := 500,
                    current_amount := 100, is_completed := false }],
        next_id := 3 } := by
    norm_num +decide [goal_deposit, findGoal, findUser, updateUserBalance,
      User.can_afford, FinancialGoal.add_amount, List.find?]
  refine ⟨?_, ?_, ?_, ?_, by norm_num⟩
  · norm_num +decide [deposit, stateZero, findUser, List.find?]
  · rw [e1]
    norm_num +decide [goal_deposit, findGoal, findUser, User.can_afford, List.find?]
  · rw [e1, e2]
    norm_num +decide [force_reverse, findTransaction, findUser, List.find?,
      (by decide : ("completed" == "reversed") = false)]
  · rw [e1, e2]
    norm_num +decide [force_reverse, findTransaction, findUser, getBalance,
      updateUserBalance, markReversed, List.find?,
      (by decide : ("completed" == "reversed") = false),
      (by decide : ("deposit" == "deposit") = true)]

/-- C1 amended, witness at the literal two-account state, amount 30,
with the transfer entry (id 10) as the force-reversed entry. -/
theorem nonneg_invariant_amended_witness :
    allBalancesNonneg (deposit stateLit 0 1 30).2 ∧
    allBalancesNonneg (transfer stateLit [seedTransferFee] 0 1 "2222222222" 30 "").2 ∧
    allBalancesNonneg (utilities stateLit [seedTransferFee] 0 1 30 "").2 ∧
    allBalancesNonneg (goal_deposit stateLit 1 1 30).2 ∧
    allBalancesNonneg (goal_withdraw stateLit 1 1 30).2 ∧
    allBalancesNonneg (undo_transaction stateLit 0 10 1).2 ∧
    allBalancesNonneg (force_reverse stateLit 10).2 :=
  nonneg_invariant_amended stateLit [seedTransferFee] 0 1 10 10 1 "2222222222" "" 30
    litSenderTx
    (by
      intro u hu
      simp [stateLit] at hu
      rcases hu with rfl | rfl <;> norm_num)
    (by norm_num)
    (by
      intro t2 ht2
      simp [stateLit] at ht2
      rcases ht2 with rfl | rfl | rfl <;>
        norm_num [litSenderTx, litRecipientTx, litGoalTx])
    rfl (by decide)

end NkunaBank
